import Mathlib

/-
  Verification development for the pantherai-app multi-provider chat gateway.

  The definitions below are a shallow embedding of the backend source:
  - backend/server.js          (request orchestration, quotas, premium gate, persistence)
  - backend/claudeService.js   (Claude adapter, streaming loop)
  - backend/openaiService.js   (OpenAI adapter)
  - backend/grokService.js     (Grok adapter)
  - backend/geminiService.js   (Gemini adapter, simulated streaming)
  - backend/fileUtils.js       (attachment processor)
  - backend/config/env.js      (credential configuration predicates)

  External effects are modelled explicitly: the SSE client transport is a list of
  delivered events plus a closed flag (a write after end is dropped, matching the
  Node ERR_STREAM_WRITE_AFTER_END behaviour where data written after the response
  has ended never reaches the client); network calls made by providers are
  environment parameters describing the outcome of the call; the durable store row
  for a session is carried in and out of the handlers as data.
-/

/-! ## JavaScript string helpers -/

/-- Boolean prefix test on character lists, used to embed the JavaScript
String.prototype.includes substring test. -/
def hasPrefixB : List Char → List Char → Bool
  | [], _ => true
  | _ :: _, [] => false
  | a :: as, b :: bs => a == b && hasPrefixB as bs

/-- Boolean infix test on character lists. -/
def hasInfixB (sub : List Char) : List Char → Bool
  | [] => hasPrefixB sub []
  | b :: bs => hasPrefixB sub (b :: bs) || hasInfixB sub bs

/-- Embedding of the JavaScript test s.includes(sub). -/
def jsIncludes (s sub : String) : Bool :=
  hasInfixB sub.toList s.toList

/-- Embedding of the JavaScript test s.startsWith(pre). -/
def jsStartsWith (s pre : String) : Bool :=
  hasPrefixB pre.toList s.toList

/-- ASCII whitespace for the trim embedding. -/
def isWhiteChar (c : Char) : Bool :=
  c == ' ' || c == '\t' || c == '\n' || c == '\r'

/-- Embedding of the JavaScript String.prototype.trim. -/
def jsTrim (s : String) : String :=
  String.mk (((s.toList.dropWhile isWhiteChar).reverse.dropWhile isWhiteChar).reverse)

/-- Lower-case an ASCII letter. -/
def lowerChar (c : Char) : Char :=
  if c.toNat ≥ 65 && c.toNat ≤ 90 then Char.ofNat (c.toNat + 32) else c

/-- Embedding of the JavaScript String.prototype.toLowerCase (ASCII range). -/
def jsToLower (s : String) : String :=
  String.mk (s.toList.map lowerChar)

/-- JavaScript truthiness of an optional string: absent and empty are falsy. -/
def jsTruthy : Option String → Bool
  | none => false
  | some s => s ≠ ""

/-! ## SSE events and the client transport -/

/-- One server-sent event as emitted by the backend: a data JSON carrying either
a chunk string, a done flag, or an error string. -/
inductive SSEEvent
  | chunk (s : String)
  | done
  | error (msg : String)
deriving DecidableEq, Repr

/-- A terminal event is done or error; chunk events are non-terminal. -/
def isTerminal : SSEEvent → Bool
  | SSEEvent.chunk _ => false
  | SSEEvent.done => true
  | SSEEvent.error _ => true

/-- The client transport: events delivered so far, and whether res.end() has run.
Writing after end is dropped, as the closed HTTP response never delivers it. -/
structure Transport where
  events : List SSEEvent
  ended : Bool
deriving DecidableEq, Repr

/-- res.write of one SSE event; a no-op once the response has ended. -/
def Transport.write (t : Transport) (e : SSEEvent) : Transport :=
  if t.ended then t else Transport.mk (t.events ++ [e]) t.ended

/-- res.end(). -/
def Transport.endT (t : Transport) : Transport :=
  Transport.mk t.events true

/-- A fresh, still-open response transport. -/
def Transport.fresh : Transport :=
  Transport.mk [] false

/-- Write a list of events in order. -/
def Transport.writeAll : Transport → List SSEEvent → Transport
  | t, [] => t
  | t, e :: rest => Transport.writeAll (t.write e) rest

/-- Transport that delivers a single error event and closes: the shape of every
early SSE rejection in the streaming endpoint. -/
def sseFailT (msg : String) : Transport :=
  (Transport.fresh.write (SSEEvent.error msg)).endT

/-- In-order concatenation of the chunk strings among a list of delivered events. -/
def chunkConcat (evs : List SSEEvent) : String :=
  String.join (evs.filterMap (fun e =>
    match e with
    | SSEEvent.chunk s => some s
    | _ => none))

/-! ## Conversation data model and durable persistence -/

/-- One stored message: role (system, user or assistant) and text content. -/
structure Msg where
  role : String
  content : String
deriving DecidableEq, Repr

/-- One durable chat row, as read and written through the chats table:
the stored messages array and the message_count column. -/
structure ChatRow where
  messages : List Msg
  message_count : Nat
deriving DecidableEq, Repr

/-- Persistence of one completed turn (server.js lines 523-543 in the one-shot
endpoint, 897-917 in saveCompletedChat, 940-960 in the Gemini branch): a fresh
insert stores the user and assistant messages with message_count 1; an update
appends both messages and increments message_count by one. -/
def saveTurn (existing : Option ChatRow) (userContent completeResponse : String) : ChatRow :=
  match existing with
  | none =>
      ChatRow.mk [Msg.mk ("user") userContent, Msg.mk ("assistant") completeResponse] 1
  | some c =>
      ChatRow.mk (c.messages ++ [Msg.mk ("user") userContent, Msg.mk ("assistant") completeResponse])
        (c.message_count + 1)

/-- The in-memory side of saveCompletedChat (server.js lines 890-894): push the
user message unless an identical user message is already present, then push the
assistant message. -/
def saveCompletedChatMemory (hist : List Msg) (userContent completeResponse : String) : List Msg :=
  let h1 :=
    if userContent ≠ "" ∧ ¬ hist.any (fun m => m.role == "user" && m.content == userContent)
    then hist ++ [Msg.mk ("user") userContent]
    else hist
  h1 ++ [Msg.mk ("assistant") completeResponse]

/-- Iterated persistence of turns starting from a given durable state. -/
def iterSave : Nat → Option ChatRow → Option ChatRow
  | 0, r => r
  | n + 1, r => iterSave n (some (saveTurn r ("u") ("a")))

/-! ## Claude streaming adapter (claudeService.js lines 204-317) -/

/-- The delta object inside a Claude content_block_delta stream record. -/
structure ClaudeDelta where
  text : String
deriving DecidableEq, Repr

/-- One parsed data record from the Claude SSE stream (after the data: prefix
split and JSON parse of lines 278-287). -/
structure ClaudeStreamData where
  type : String
  delta : Option ClaudeDelta
deriving DecidableEq, Repr

/-- Extraction test of lines 289-293: the record contributes its delta text iff
its type is content_block_delta and data.delta and data.delta.text are truthy
(the empty string is falsy in JavaScript, so an empty delta is skipped). -/
def claudeExtract (d : ClaudeStreamData) : Option String :=
  if d.type = "content_block_delta" then
    match d.delta with
    | some dl => if dl.text ≠ "" then some dl.text else none
    | none => none
  else none

/-- The chunk events written by the Claude streaming loop, in arrival order. -/
def claudeStreamEvents (datas : List ClaudeStreamData) : List SSEEvent :=
  (datas.filterMap claudeExtract).map SSEEvent.chunk

/-- The accumulated completeResponse of the Claude streaming loop. -/
def claudeCompleteResponse (datas : List ClaudeStreamData) : String :=
  String.join (datas.filterMap claudeExtract)

/-- The successful run of generateClaudeStreamingResponse over a fully parsed
stream: each extracted delta is written as a chunk and accumulated, then the
done event is written and the response ended; the accumulated text is handed to
the onComplete callback. -/
def generateClaudeStreamingRun (t : Transport) (datas : List ClaudeStreamData) :
    Transport × String :=
  (((t.writeAll (claudeStreamEvents datas)).write SSEEvent.done).endT,
    claudeCompleteResponse datas)

/-! ## Basic transport lemmas -/

theorem writeAll_open (evs : List SSEEvent) :
    ∀ t : Transport, t.ended = false →
      Transport.writeAll t evs = Transport.mk (t.events ++ evs) false := by
  induction evs with
  | nil =>
      intro t ht
      cases t with
      | mk es en =>
          simp only [Transport.ended] at ht
          subst ht
          simp [Transport.writeAll]
  | cons e rest ih =>
      intro t ht
      cases t with
      | mk es en =>
          simp only [Transport.ended] at ht
          subst ht
          show Transport.writeAll (Transport.write (Transport.mk es false) e) rest = _
          have hw : Transport.write (Transport.mk es false) e =
              Transport.mk (es ++ [e]) false := by
            simp [Transport.write]
          rw [hw, ih (Transport.mk (es ++ [e]) false) rfl]
          simp

theorem generateClaudeStreamingRun_fresh (datas : List ClaudeStreamData) :
    generateClaudeStreamingRun Transport.fresh datas =
      (Transport.mk (claudeStreamEvents datas ++ [SSEEvent.done]) true,
        claudeCompleteResponse datas) := by
  unfold generateClaudeStreamingRun
  rw [writeAll_open _ Transport.fresh rfl]
  simp [Transport.fresh, Transport.write, Transport.endT]

/-! ## Gemini adapter (geminiService.js) -/

/-- One part inside a Gemini candidate content (candidates[0].content.parts[i]);
the text field may be absent. -/
structure GeminiPart where
  text : Option String
deriving DecidableEq, Repr

/-- The content object of a Gemini candidate; may be absent on the wire. -/
structure GeminiContent where
  parts : List GeminiPart
deriving DecidableEq, Repr

/-- One Gemini candidate. -/
structure GeminiCandidate where
  content : Option GeminiContent
deriving DecidableEq, Repr

/-- A parsed Gemini generateContent response payload. -/
structure GeminiData where
  candidates : List GeminiCandidate
deriving DecidableEq, Repr

/-- The fallback reply used when the payload carries no usable text
(geminiService.js line 167). -/
def geminiDefaultReply : String :=
  "Error processing Gemini response."

/-- Reply extraction of geminiService.js lines 169-174: take the text of the
first part of the first candidate; any missing layer, or a falsy (empty) text,
falls back to the default reply. -/
def geminiExtractReply (d : GeminiData) : String :=
  match d.candidates with
  | [] => geminiDefaultReply
  | c :: _ =>
      match c.content with
      | none => geminiDefaultReply
      | some ct =>
          match ct.parts with
          | [] => geminiDefaultReply
          | p :: _ =>
              match p.text with
              | some t => if t ≠ "" then t else geminiDefaultReply
              | none => geminiDefaultReply

/-- The outcome of the Gemini HTTP call as seen by generateGeminiResponse:
missing credential, a non-2xx response, or a parsed payload. -/
inductive GeminiFate
  | notConfigured
  | httpError (status : Nat) (body : String)
  | ok (payload : GeminiData)
deriving DecidableEq, Repr

/-- generateGeminiResponse (geminiService.js lines 77-181): throws on a missing
credential or a non-2xx response, otherwise returns the extracted reply. -/
def generateGeminiResponse : GeminiFate → Except String String
  | GeminiFate.notConfigured =>
      Except.error ("Gemini API key not configured. Please contact administrator.")
  | GeminiFate.httpError status body =>
      Except.error ("Gemini API responded with " ++ toString status ++ (": ") ++ body)
  | GeminiFate.ok d => Except.ok (geminiExtractReply d)

/-- handleGeminiStreamingRequest (geminiService.js lines 191-212): perform the
blocking generate call, deliver the whole reply as one chunk followed by the
done event, and return it for persistence; on failure deliver one error event. -/
def handleGeminiStreamingRequest (t : Transport) (fate : GeminiFate) :
    Transport × Option String :=
  match generateGeminiResponse fate with
  | Except.ok r => (((t.write (SSEEvent.chunk r)).write SSEEvent.done).endT, some r)
  | Except.error m => ((t.write (SSEEvent.error ("Gemini API error: " ++ m))).endT, none)

/-! ## Attachment processor (fileUtils.js) and Gemini image path -/

/-- One uploaded file as seen by the attachment processor: multer metadata plus
an abstraction of its on-disk bytes (existsOnDisk for fs.existsSync, readable
for whether fs.promises.readFile succeeds, b64 for the base64 rendering of the
bytes, content for the decoded text). -/
structure FileMeta where
  originalname : String
  mimetype : String
  size : Nat
  existsOnDisk : Bool
  readable : Bool
  b64 : String
  content : String
deriving DecidableEq, Repr

/-- A provider-ready image part in one of the three wire shapes produced by the
attachment processor. -/
inductive ImagePart
  | claudeImg (mediaType : String) (data : String)
  | oaiImg (url : String)
  | geminiImg (mimeType : String) (data : String)
deriving DecidableEq, Repr

/-- The image filter of prepareImagesForModel / prepareClaudeImages
(fileUtils.js lines 912-920, 992-999): keep files whose mime type has the
image/ prefix and which exist on disk. -/
def imageFilter (files : List FileMeta) : List FileMeta :=
  files.filter (fun f => jsStartsWith f.mimetype ("image/") && f.existsOnDisk)

/-- Per-file Claude image preparation (fileUtils.js lines 930-963). The first
component records whether the bytes of the file were read: a file over the
10 MiB ceiling is dropped after the stat call, before any read. -/
def prepClaude (f : FileMeta) : Bool × Option ImagePart :=
  if f.size > 10 * 1024 * 1024 then (false, none)
  else if f.readable then (true, some (ImagePart.claudeImg f.mimetype f.b64))
  else (true, none)

/-- Per-file Gemini image preparation inside prepareImagesForModel
(fileUtils.js lines 1015-1041): 10 MiB ceiling checked on the stat before the
read. -/
def prepGeminiBranch (f : FileMeta) : Bool × Option ImagePart :=
  if f.size > 10 * 1024 * 1024 then (false, none)
  else if f.readable then (true, some (ImagePart.geminiImg f.mimetype f.b64))
  else (true, none)

/-- fileToDataURL (fileUtils.js lines 876-899): refuses missing files, refuses
files over 10 MiB before reading, otherwise reads the bytes and produces a
base64 data URL. The first component records whether the bytes were read. -/
def fileToDataURL (f : FileMeta) : Bool × Option String :=
  if ¬ f.existsOnDisk then (false, none)
  else if f.size > 10 * 1024 * 1024 then (false, none)
  else if f.readable then
    (true, some (("data:") ++ f.mimetype ++ (";base64,") ++ f.b64))
  else (true, none)

/-- Per-file OpenAI image preparation (fileUtils.js lines 1077-1104): 20 MiB
ceiling checked on the stat, then conversion through fileToDataURL. -/
def prepOAI (f : FileMeta) : Bool × Option ImagePart :=
  if f.size > 20 * 1024 * 1024 then (false, none)
  else
    match fileToDataURL f with
    | (r, some u) => (r, some (ImagePart.oaiImg u))
    | (r, none) => (r, none)

/-- Per-file Grok image preparation (fileUtils.js lines 1046-1072): identical
shape to the OpenAI branch, 20 MiB ceiling then fileToDataURL. -/
def prepGrok (f : FileMeta) : Bool × Option ImagePart :=
  if f.size > 20 * 1024 * 1024 then (false, none)
  else
    match fileToDataURL f with
    | (r, some u) => (r, some (ImagePart.oaiImg u))
    | (r, none) => (r, none)

/-- prepareImagesForModel (fileUtils.js lines 983-1109): filter to existing
image files, then map the per-branch preparation selected by substring tests on
the target model name. Each list entry pairs the prepared part (null on drop)
with whether that file had its bytes read. -/
def prepareImagesForModel (files : List FileMeta) (targetModel : String) :
    List (Bool × Option ImagePart) :=
  let imgs := imageFilter files
  if imgs = [] then []
  else if jsIncludes targetModel ("claude") then imgs.map prepClaude
  else if jsIncludes targetModel ("gemini") then imgs.map prepGeminiBranch
  else if jsIncludes targetModel ("grok") then imgs.map prepGrok
  else imgs.map prepOAI

/-- processImagesForGemini (geminiService.js lines 40-67), the image path the
server actually uses for Gemini requests: every file has its bytes read with no
size ceiling; a failed read yields null, a successful read is always included. -/
def processImagesForGemini (files : List FileMeta) : List (Bool × Option ImagePart) :=
  files.map (fun f =>
    if f.readable then (true, some (ImagePart.geminiImg f.mimetype f.b64))
    else (true, none))

/-- readFileContent (fileUtils.js lines 841-867): missing or unreadable files
yield null; files over 1 MiB are truncated to their first 100 KiB with an
explicit marker (the byte-level truncation is modelled on characters). -/
def readFileCont (f : FileMeta) : Option String :=
  if ¬ f.existsOnDisk then none
  else if f.size > 1024 * 1024 then
    some ((f.content.take (100 * 1024)) ++ ("\n\n... [Content truncated due to size] ..."))
  else if f.readable then some f.content
  else none

/-! ## Provider credential configuration (config/env.js, openaiService.js) -/

/-- isOpenAIConfigured (openaiService.js lines 14-16): the key, possibly absent
from the environment, must be truthy and start with sk-. -/
def isOpenAIConfigured (key : Option String) : Bool :=
  match key with
  | none => false
  | some k => k ≠ "" && jsStartsWith k ("sk-")

/-- config.claude.isConfigured (config/env.js lines 723-728): the key defaults
to the empty string and must start with sk-ant-. -/
def isClaudeConfigured (key : String) : Bool :=
  key ≠ "" && jsStartsWith key ("sk-ant-")

/-- config.grok.isConfigured (config/env.js lines 729-734): the key defaults to
the empty string and must start with xai-. -/
def isGrokConfigured (key : String) : Bool :=
  key ≠ "" && jsStartsWith key ("xai-")

/-- isGeminiConfigured (geminiService.js lines 20-22): the key, defaulting to
the placeholder, must be truthy and differ from the placeholder. -/
def isGeminiConfigured (key : String) : Bool :=
  key ≠ "" && key ≠ "<YOUR_GEMINI_API_KEY>"

/-- Outcome of a provider network call, when one is attempted. -/
inductive NetFate
  | fail (msg : String)
  | ok (text : String)
deriving DecidableEq, Repr

/-- Result of a one-shot generate call: whether any network request was made,
and the returned text or thrown error. -/
structure GenCallResult where
  network : Bool
  result : Except String String
deriving Repr

/-- Result of a streaming call: whether any network request was made, and the
final transport state. -/
structure StreamCallResult where
  network : Bool
  transport : Transport
deriving DecidableEq, Repr

/-- The configuration error message of openaiService.js. -/
def openaiConfErr : String :=
  "OpenAI API key not configured. Please contact administrator."

/-- The configuration error message of claudeService.js. -/
def claudeConfErr : String :=
  "Claude API key not configured. Please contact administrator."

/-- The configuration error message of grokService.js. -/
def grokConfErr : String :=
  "Grok API key not configured. Please contact administrator."

/-- The configuration error message of geminiService.js. -/
def geminiConfErr : String :=
  "Gemini API key not configured. Please contact administrator."

/-- generateOpenAIResponse (openaiService.js lines 25-45): throw the
configuration error before any network call when unconfigured, otherwise
perform the call and return its text or propagate its failure. -/
def generateOpenAIResponseM (key : Option String) (fate : NetFate) : GenCallResult :=
  if ¬ isOpenAIConfigured key then GenCallResult.mk false (Except.error openaiConfErr)
  else
    match fate with
    | NetFate.fail m => GenCallResult.mk true (Except.error m)
    | NetFate.ok t => GenCallResult.mk true (Except.ok t)

/-- generateClaudeResponse (claudeService.js lines 124-194): same shape. -/
def generateClaudeResponseM (key : String) (fate : NetFate) : GenCallResult :=
  if ¬ isClaudeConfigured key then GenCallResult.mk false (Except.error claudeConfErr)
  else
    match fate with
    | NetFate.fail m => GenCallResult.mk true (Except.error m)
    | NetFate.ok t => GenCallResult.mk true (Except.ok t)

/-- generateGrokResponse (grokService.js lines 377-427): same shape. -/
def generateGrokResponseM (key : String) (fate : NetFate) : GenCallResult :=
  if ¬ isGrokConfigured key then GenCallResult.mk false (Except.error grokConfErr)
  else
    match fate with
    | NetFate.fail m => GenCallResult.mk true (Except.error m)
    | NetFate.ok t => GenCallResult.mk true (Except.ok t)

/-- generateGeminiResponse configuration guard (geminiService.js lines 82-85):
the credential check precedes the fetch. -/
def generateGeminiResponseM (key : String) (fate : NetFate) : GenCallResult :=
  if ¬ isGeminiConfigured key then GenCallResult.mk false (Except.error geminiConfErr)
  else
    match fate with
    | NetFate.fail m => GenCallResult.mk true (Except.error m)
    | NetFate.ok t => GenCallResult.mk true (Except.ok t)

/-- Outcome of a provider streaming HTTP exchange, when one is attempted: a
non-2xx status, or a stream of already-extracted delta strings. -/
inductive StreamNetFate
  | fail (msg : String)
  | okStream (deltas : List String)
deriving DecidableEq, Repr

/-- The body of an OpenAI-style streaming adapter once configured (openaiService.js
lines 65-96, and the identical loops of grokService.js and claudeService.js):
write every delta as a chunk and accumulate it, then write done and end; on a
thrown error write one error event and end. -/
def runStreamBody (t : Transport) (fate : StreamNetFate) : Transport :=
  match fate with
  | StreamNetFate.fail _ =>
      (t.write (SSEEvent.error ("Failed to generate AI response"))).endT
  | StreamNetFate.okStream deltas =>
      ((t.writeAll (deltas.map SSEEvent.chunk)).write SSEEvent.done).endT

/-- generateOpenAIStreamingResponse (openaiService.js lines 55-97): when
unconfigured, write the configuration error and end with no network call. -/
def generateOpenAIStreamingM (key : Option String) (t : Transport) (fate : StreamNetFate) :
    StreamCallResult :=
  if ¬ isOpenAIConfigured key then
    StreamCallResult.mk false ((t.write (SSEEvent.error openaiConfErr)).endT)
  else StreamCallResult.mk true (runStreamBody t fate)

/-- generateClaudeStreamingResponse configuration guard (claudeService.js
lines 208-213). -/
def generateClaudeStreamingM (key : String) (t : Transport) (fate : StreamNetFate) :
    StreamCallResult :=
  if ¬ isClaudeConfigured key then
    StreamCallResult.mk false ((t.write (SSEEvent.error claudeConfErr)).endT)
  else StreamCallResult.mk true (runStreamBody t fate)

/-- generateGrokStreamingResponse configuration guard (grokService.js
lines 441-446). -/
def generateGrokStreamingM (key : String) (t : Transport) (fate : StreamNetFate) :
    StreamCallResult :=
  if ¬ isGrokConfigured key then
    StreamCallResult.mk false ((t.write (SSEEvent.error grokConfErr)).endT)
  else StreamCallResult.mk true (runStreamBody t fate)

/-- handleGeminiStreamingRequest configuration guard: the inner generate call
checks the credential before its fetch, and the streaming wrapper converts the
thrown error into one error event. -/
def generateGeminiStreamingM (key : String) (t : Transport) (fate : StreamNetFate) :
    StreamCallResult :=
  if ¬ isGeminiConfigured key then
    StreamCallResult.mk false
      ((t.write (SSEEvent.error ("Gemini API error: " ++ geminiConfErr))).endT)
  else StreamCallResult.mk true (runStreamBody t fate)

/-! ## Upload middleware (server.js lines 101-146) -/

/-- The multer fileSize limit configured at server.js line 103 (the source
comment calls the 10 * 1024 * 1024 bytes value 10MB). -/
def multerFileSizeLimit : Nat := 10 * 1024 * 1024

/-- The multer fileFilter of server.js lines 104-117: accept images, pdf, text,
json and csv mime types; silently skip everything else. -/
def multerFileFilterAccepts (f : FileMeta) : Bool :=
  jsStartsWith f.mimetype ("image/") || jsIncludes f.mimetype ("pdf") ||
    jsIncludes f.mimetype ("text/") || jsIncludes f.mimetype ("application/json") ||
    jsIncludes f.mimetype ("csv")

/-- Outcome of the enhancedUpload middleware. -/
inductive UploadOutcome
  | reject413
  | accepted (files : List FileMeta)
deriving DecidableEq, Repr

/-- enhancedUpload (server.js lines 121-146) over multer with the limits of
lines 101-118. Multer is a library: its documented limits behaviour is embedded
here — a file part larger than the fileSize limit makes multer raise a
LIMIT_FILE_SIZE MulterError, which enhancedUpload maps to an HTTP 413 response
before the route handler ever runs; otherwise the filtered files are handed to
the handler. -/
def enhancedUpload (incoming : List FileMeta) : UploadOutcome :=
  if incoming.any (fun f => f.size > multerFileSizeLimit) then UploadOutcome.reject413
  else UploadOutcome.accepted (incoming.filter multerFileFilterAccepts)

/-! ## Request orchestration (server.js chat endpoints) -/

/-- The cost-incurring or gate steps of the orchestration, in the order the
handlers execute them; the handlers below emit them as a trace. -/
inductive Step
  | accessChecks
  | processFiles
  | readTextFiles
  | premiumCheck
  | prepareImages
  | providerCall
  | persistTurn
deriving DecidableEq, Repr

/-- Outcome of the bearer-token authentication against the identity provider. -/
inductive AuthOutcome
  | missingHeader
  | noToken
  | authFailed (msg : String)
  | noUser
  | okUser (userId : String)
deriving DecidableEq, Repr

/-- Outcome of the one-shot provider call selected by the model dispatch. -/
inductive GenFate
  | genError (msg : String)
  | genOk (text : String)
deriving DecidableEq, Repr

/-- Outcome of an OpenAI-style streaming provider call as the orchestrator sees
it: a missing credential (the adapter writes its configuration error and
returns), a failed HTTP exchange (the adapter writes one error event, ends and
rethrows), or a stream of extracted delta strings followed by a clean finish. -/
inductive StreamFate
  | notConfigured
  | httpError
  | streamOk (deltas : List String)
deriving DecidableEq, Repr

/-- An incoming chat request after multipart parsing: body fields plus the
uploaded files. Absent and empty strings are both JavaScript-falsy. -/
structure ChatRequest where
  sessionId : Option String
  message : Option String
  files : List FileMeta
  model : Option String
deriving DecidableEq, Repr

/-- The environment of one request: authentication result, resolved
subscription status, the durable row and chat count read from the store, the
per-session stored model, and the provider call outcomes. -/
structure ServerEnv where
  auth : AuthOutcome
  subscribed : Bool
  existingChat : Option ChatRow
  totalChats : Nat
  storedModel : Option String
  gen : GenFate
  sfate : StreamFate
  gfate : GeminiFate
deriving DecidableEq, Repr

/-- The new-chat quota of server.js lines 309-314 / 642-647: an unsubscribed
user with no durable record for this session and at least 3 existing chats is
rejected. -/
def quotaNewChatReject (subscribed : Bool) (existing : Option ChatRow) (totalChats : Nat) : Bool :=
  !subscribed && existing.isNone && decide (totalChats ≥ 3)

/-- The per-chat quota of server.js lines 315-318 / 648-651: an unsubscribed
user whose durable record has message_count at least 20 is rejected. -/
def quotaMsgsReject (subscribed : Bool) (existing : Option ChatRow) : Bool :=
  !subscribed &&
    (match existing with
     | some c => decide (c.message_count ≥ 20)
     | none => false)

/-- The fixed premium marker list of server.js lines 394 / 683. -/
def premiumModels : List String :=
  [("gpt-4"), ("claude"), ("grok"), ("deepseek")]

/-- The premium classification of server.js lines 394-396 / 683-685: the
lowercased model id contains one of the markers. -/
def isPremiumModel (selectedModel : String) : Bool :=
  premiumModels.any (fun pm => jsIncludes (jsToLower selectedModel) pm)

/-- Model selection of server.js lines 389-391 / 678-680 (together with the
lazy initialisation of the per-session stored model): the request model wins
when truthy, then the stored model, then the gpt-3.5-turbo default. -/
def selectModel (reqModel stored : Option String) : String :=
  let base :=
    match stored with
    | some s => if s ≠ "" then s else ("gpt-3.5-turbo")
    | none => ("gpt-3.5-turbo")
  match reqModel with
  | some m => if m ≠ "" then m else base
  | none => base

/-- The per-file caption of the document synthesis (server.js lines 349-364 /
733-748): name and mime type (the kilobyte figure, a floating-point rendering,
is elided), with the file content inlined for text, json and csv mime types and
a binary marker otherwise. -/
def fileInfoLine (f : FileMeta) : String :=
  let base := ("- ") ++ f.originalname ++ (" (") ++ f.mimetype ++ (")")
  if jsStartsWith f.mimetype ("text/") || jsIncludes f.mimetype ("json") ||
      jsIncludes f.mimetype ("csv") then
    match readFileCont f with
    | some c => base ++ ("\n\nContent of ") ++ f.originalname ++ (":\n") ++ c
    | none => base
  else base ++ ("\n[Binary file]")

/-- The synthesized document block of server.js lines 366-368 / 750-752. -/
def textFilesContent (textFiles : List FileMeta) : String :=
  if textFiles = [] then ("")
  else
    ("I\x27ve attached the following text-based files:\n") ++
      String.intercalate ("\n\n") (textFiles.map fileInfoLine) ++ ("\n\n")

/-- The user content assembly of the one-shot endpoint (server.js lines
376-385): message text, the document block, and the synthetic prompt when both
are empty but any file is attached. -/
def buildUserContentOneShot (message : Option String) (textFiles imageFiles : List FileMeta) :
    String :=
  let base := match message with | some m => m | none => ""
  let tfc := textFilesContent textFiles
  let u1 := if tfc ≠ "" then (if base ≠ "" then base ++ ("\n\n") ++ tfc else tfc) else base
  if u1 = "" && (decide (imageFiles ≠ []) || decide (textFiles ≠ [])) then
    ("Please analyze the attached files.")
  else u1

/-- The user content assembly of the streaming endpoint (server.js lines
761-770): as in the one-shot path, except the synthetic prompt is used only
when no image files are attached. -/
def buildUserContentStream (message : Option String) (textFiles imageFiles : List FileMeta) :
    String :=
  let base := match message with | some m => m | none => ""
  let tfc := textFilesContent textFiles
  let u1 := if tfc ≠ "" then (if base ≠ "" then base ++ ("\n\n") ++ tfc else tfc) else base
  if u1 = "" && imageFiles = [] then ("Please analyze the attached files.") else u1

/-- The image-preparation target chosen by the branch chain of server.js lines
417-493 / 782-876 for a non-Gemini model: claude first, then grok, else the
OpenAI default. -/
def imageTargetFor (m : String) : String :=
  if jsIncludes m ("claude") then ("claude")
  else if !(jsIncludes m ("grok")) then ("openai")
  else ("grok")

/-- The streaming-endpoint abort message when no image survives preparation
(server.js lines 808-810 / 839-843 / 871-875). -/
def imageFailMsg (target : String) : String :=
  if target = "claude" then ("Failed to process image attachments for Claude")
  else if target = "grok" then ("Failed to process image attachments for Grok")
  else ("Failed to process image attachments for OpenAI")

/-- Result of the one-shot endpoint: HTTP status, a tag naming the response
taken, the executed step trace, and the durable row written if the turn was
persisted. -/
structure OneShotResult where
  status : Nat
  tag : String
  trace : List Step
  saved : Option ChatRow
deriving DecidableEq, Repr

/-- The one-shot endpoint app.post /api/chat (server.js lines 259-562). -/
def chatHandler (req : ChatRequest) (env : ServerEnv) : OneShotResult :=
  if !(jsTruthy req.sessionId) || (!(jsTruthy req.message) && req.files = []) then
    OneShotResult.mk 400 ("missing_fields") [] none
  else
    match env.auth with
    | AuthOutcome.missingHeader => OneShotResult.mk 401 ("missing_auth_header") [] none
    | AuthOutcome.noToken => OneShotResult.mk 401 ("malformed_auth_header") [] none
    | AuthOutcome.authFailed _ => OneShotResult.mk 401 ("auth_failed") [] none
    | AuthOutcome.noUser => OneShotResult.mk 401 ("no_user") [] none
    | AuthOutcome.okUser _ =>
      if quotaNewChatReject env.subscribed env.existingChat env.totalChats then
        OneShotResult.mk 403 ("quota_new_chat") [Step.accessChecks] none
      else if quotaMsgsReject env.subscribed env.existingChat then
        OneShotResult.mk 403 ("quota_messages") [Step.accessChecks] none
      else
        let tr1 := [Step.accessChecks] ++ (if req.files = [] then [] else [Step.processFiles])
        let imageFiles := req.files.filter (fun f => jsStartsWith f.mimetype ("image/"))
        let textFiles := req.files.filter (fun f => !(jsStartsWith f.mimetype ("image/")))
        let tr2 := tr1 ++ (if textFiles = [] then [] else [Step.readTextFiles])
        let userContent := buildUserContentOneShot req.message textFiles imageFiles
        let selectedModel := selectModel req.model env.storedModel
        let tr3 := tr2 ++ [Step.premiumCheck]
        if isPremiumModel selectedModel && !env.subscribed then
          OneShotResult.mk 403 ("premium_required") tr3 none
        else
          let tr4 := tr3 ++
            (if decide (imageFiles ≠ []) && !(jsIncludes selectedModel ("gemini")) then
              [Step.prepareImages] else [])
          let tr5 := tr4 ++ [Step.providerCall]
          match env.gen with
          | GenFate.genError _ => OneShotResult.mk 500 ("provider_error") tr5 none
          | GenFate.genOk botReply =>
              OneShotResult.mk 200 ("ok") (tr5 ++ [Step.persistTurn])
                (some (saveTurn env.existingChat userContent botReply))

/-- Outcome of the streaming endpoint: an HTTP rejection issued before the SSE
response begins, or the final state of the SSE transport. -/
inductive StreamOutcome
  | httpReject (status : Nat) (tag : String)
  | sse (t : Transport)
deriving DecidableEq, Repr

/-- Result of the streaming endpoint. -/
structure StreamResult where
  outcome : StreamOutcome
  trace : List Step
  saved : Option ChatRow
deriving DecidableEq, Repr

/-- The shared behaviour of the three OpenAI-style streaming dispatch branches
(server.js lines 972-1000): the adapter writes its configuration error and
returns when unconfigured; writes one error event, ends and rethrows on an HTTP
failure (for the default OpenAI branch the rethrow reaches the outer catch of
line 1003, whose second error write finds the response already ended and is
dropped); and on success writes every chunk in order, then done, then hands the
accumulated text to saveCompletedChat. -/
def streamDispatchCommon (fate : StreamFate) (confMsg : String)
    (existing : Option ChatRow) (userContent : String) (outerCatch : Bool) :
    Transport × Option ChatRow :=
  match fate with
  | StreamFate.notConfigured =>
      ((Transport.fresh.write (SSEEvent.error confMsg)).endT, none)
  | StreamFate.httpError =>
      let t1 := (Transport.fresh.write (SSEEvent.error ("Failed to generate AI response"))).endT
      let t2 :=
        if outerCatch then (t1.write (SSEEvent.error ("Failed to generate AI response"))).endT
        else t1
      (t2, none)
  | StreamFate.streamOk deltas =>
      (((Transport.fresh.writeAll (deltas.map SSEEvent.chunk)).write SSEEvent.done).endT,
        some (saveTurn existing userContent (String.join deltas)))

/-- The model dispatch of the streaming endpoint (server.js lines 923-1000):
Gemini first (simulated streaming plus inline persistence), then Claude, Grok
and the OpenAI default. -/
def dispatchStream (selectedModel : String) (env : ServerEnv)
    (existing : Option ChatRow) (userContent : String) : Transport × Option ChatRow :=
  if jsIncludes selectedModel ("gemini") then
    match handleGeminiStreamingRequest Transport.fresh env.gfate with
    | (t1, some r) => (t1, some (saveTurn existing userContent r))
    | (t1, none) => (t1, none)
  else if jsIncludes selectedModel ("claude") then
    streamDispatchCommon env.sfate claudeConfErr existing userContent false
  else if jsIncludes selectedModel ("grok") then
    streamDispatchCommon env.sfate grokConfErr existing userContent false
  else
    streamDispatchCommon env.sfate openaiConfErr existing userContent true

/-- Dispatch plus trace bookkeeping for the streaming endpoint. -/
def finishDispatch (selectedModel : String) (env : ServerEnv) (userContent : String)
    (tr : List Step) : StreamResult :=
  StreamResult.mk
    (StreamOutcome.sse (dispatchStream selectedModel env env.existingChat userContent).1)
    (tr ++ [Step.providerCall] ++
      (if (dispatchStream selectedModel env env.existingChat userContent).2.isSome then
        [Step.persistTurn] else []))
    (dispatchStream selectedModel env env.existingChat userContent).2

/-- The streaming endpoint app.post /api/chat/stream (server.js lines
565-1018). Field validation and header checks answer with plain HTTP before the
SSE response begins; every later rejection is delivered as a single SSE error
event on the opened stream. -/
def streamHandler (req : ChatRequest) (env : ServerEnv) : StreamResult :=
  if !(jsTruthy req.sessionId) then
    StreamResult.mk (StreamOutcome.httpReject 400 ("missing_session")) [] none
  else
    let hasMessage := match req.message with | some m => decide (jsTrim m ≠ "") | none => false
    if !hasMessage && req.files = [] then
      StreamResult.mk (StreamOutcome.httpReject 400 ("missing_content")) [] none
    else
      match env.auth with
      | AuthOutcome.missingHeader =>
          StreamResult.mk (StreamOutcome.httpReject 401 ("missing_auth_header")) [] none
      | AuthOutcome.noToken =>
          StreamResult.mk (StreamOutcome.httpReject 401 ("malformed_auth_header")) [] none
      | AuthOutcome.authFailed m =>
          StreamResult.mk (StreamOutcome.sse (sseFailT ("Authentication failed: " ++ m))) [] none
      | AuthOutcome.noUser =>
          StreamResult.mk (StreamOutcome.sse (sseFailT ("No user found for this token"))) [] none
      | AuthOutcome.okUser _ =>
        if quotaNewChatReject env.subscribed env.existingChat env.totalChats then
          StreamResult.mk
            (StreamOutcome.sse (sseFailT ("Free tier limit reached: Maximum 3 chats allowed.")))
            [Step.accessChecks] none
        else if quotaMsgsReject env.subscribed env.existingChat then
          StreamResult.mk
            (StreamOutcome.sse
              (sseFailT ("Free tier limit: Maximum 20 messages per chat reached.")))
            [Step.accessChecks] none
        else
          let tr1 := [Step.accessChecks] ++ (if req.files = [] then [] else [Step.processFiles])
          let selectedModel := selectModel req.model env.storedModel
          if isPremiumModel selectedModel && !env.subscribed then
            StreamResult.mk
              (StreamOutcome.sse
                (sseFailT
                  ("Model not available for free users. Please subscribe to access this model.")))
              (tr1 ++ [Step.premiumCheck]) none
          else
            let tr2 := tr1 ++ [Step.premiumCheck]
            let imageFiles := req.files.filter (fun f => jsStartsWith f.mimetype ("image/"))
            let textFiles := req.files.filter (fun f => !(jsStartsWith f.mimetype ("image/")))
            let tr3 := tr2 ++ (if textFiles = [] then [] else [Step.readTextFiles])
            let userContent := buildUserContentStream req.message textFiles imageFiles
            if decide (imageFiles ≠ []) && !(jsIncludes selectedModel ("gemini")) then
              let target := imageTargetFor selectedModel
              let valid := (prepareImagesForModel imageFiles target).filterMap (fun p => p.2)
              let tr4 := tr3 ++ [Step.prepareImages]
              if valid = [] then
                StreamResult.mk (StreamOutcome.sse (sseFailT (imageFailMsg target))) tr4 none
              else finishDispatch selectedModel env userContent tr4
            else finishDispatch selectedModel env userContent tr3

/-- Outcome of the full one-shot pipeline including the upload middleware. -/
inductive PipelineResult
  | reject413
  | handled (r : OneShotResult)
deriving DecidableEq, Repr

/-- The one-shot route as mounted: enhancedUpload runs first and a 413 from it
prevents the handler (and hence authentication and attachment processing) from
running at all. -/
def chatPipeline (incoming : List FileMeta) (req : ChatRequest) (env : ServerEnv) :
    PipelineResult :=
  match enhancedUpload incoming with
  | UploadOutcome.reject413 => PipelineResult.reject413
  | UploadOutcome.accepted fs =>
      PipelineResult.handled (chatHandler (ChatRequest.mk req.sessionId req.message fs req.model) env)

/-! ## Helper predicates over traces and event lists -/

/-- The delivered event list of a streaming result, when an SSE stream was
actually opened (HTTP-level rejections open no stream). -/
def sseEventsOf (r : StreamResult) : Option (List SSEEvent) :=
  match r.outcome with
  | StreamOutcome.sse t => some t.events
  | StreamOutcome.httpReject _ _ => none

/-- An event list carries exactly one terminal event, and it is the last
delivered event. -/
def OneTerminal (evs : List SSEEvent) : Prop :=
  ∃ pre e, evs = pre ++ [e] ∧ isTerminal e = true ∧
    pre.all (fun x => !(isTerminal x)) = true

/-- Scanner for precededBy: seen records whether a has already occurred. -/
def precededByAux (a b : Step) : Bool → List Step → Bool
  | _, [] => true
  | seen, s :: rest =>
      if s == b && !seen then false
      else precededByAux a b (seen || s == a) rest

/-- Every occurrence of b in the trace is preceded by an earlier occurrence
of a. -/
def precededBy (a b : Step) (tr : List Step) : Bool :=
  precededByAux a b false tr

theorem precededByAux_of_seen (a b : Step) :
    ∀ tr : List Step, precededByAux a b true tr = true := by
  intro tr
  induction tr with
  | nil => rfl
  | cons s rest ih => simp [precededByAux, ih]

theorem precededByAux_not_mem (a b : Step) :
    ∀ tr : List Step, b ∉ tr → ∀ seen : Bool, precededByAux a b seen tr = true := by
  intro tr
  induction tr with
  | nil => intro _ seen; rfl
  | cons s rest ih =>
      intro hb seen
      rw [List.mem_cons, not_or] at hb
      have hsb : (s == b) = false := beq_eq_false_iff_ne.mpr (fun h => hb.1 h.symm)
      have hrest := ih hb.2 (seen || s == a)
      simp [precededByAux, hsb, hrest]

theorem precededBy_not_mem (a b : Step) (tr : List Step) (hb : b ∉ tr) :
    precededBy a b tr = true :=
  precededByAux_not_mem a b tr hb false

theorem precededBy_append_pivot (a b : Step) (hab : a ≠ b) :
    ∀ l1 l2 : List Step, b ∉ l1 → precededBy a b (l1 ++ a :: l2) = true := by
  intro l1
  induction l1 with
  | nil =>
      intro l2 _
      have hba : (a == b) = false := beq_eq_false_iff_ne.mpr hab
      have hs := precededByAux_of_seen a b l2
      simp [precededBy, precededByAux, hba, hs]
  | cons s rest ih =>
      intro l2 hb
      rw [List.mem_cons, not_or] at hb
      have hsb : (s == b) = false := beq_eq_false_iff_ne.mpr (fun h => hb.1 h.symm)
      cases hsa : (s == a) with
      | false =>
          have h1 := ih l2 hb.2
          unfold precededBy at h1
          simpa [precededBy, precededByAux, hsb, hsa] using h1
      | true =>
          have h2 := precededByAux_of_seen a b (rest ++ a :: l2)
          simpa [precededBy, precededByAux, hsb, hsa] using h2

theorem oneTerminal_single_error (m : String) : OneTerminal [SSEEvent.error m] :=
  ⟨[], SSEEvent.error m, rfl, rfl, rfl⟩

theorem oneTerminal_chunks_done (l : List String) :
    OneTerminal (l.map SSEEvent.chunk ++ [SSEEvent.done]) := by
  refine ⟨l.map SSEEvent.chunk, SSEEvent.done, rfl, rfl, ?_⟩
  simp only [List.all_eq_true, List.mem_map]
  rintro x ⟨s, _, rfl⟩
  rfl

theorem sseFailT_events (m : String) :
    sseFailT m = Transport.mk [SSEEvent.error m] true := rfl

/-! ## Streaming accumulation lemmas -/

theorem chunkConcat_chunks_done (l : List String) :
    chunkConcat (l.map SSEEvent.chunk ++ [SSEEvent.done]) = String.join l := by
  unfold chunkConcat
  rw [List.filterMap_append]
  have h1 : (l.map SSEEvent.chunk).filterMap
      (fun e => match e with | SSEEvent.chunk s => some s | _ => none) = l := by
    induction l with
    | nil => rfl
    | cons s rest ih => simpa [List.filterMap_cons] using ih
  have h2 : ([SSEEvent.done] : List SSEEvent).filterMap
      (fun e => match e with | SSEEvent.chunk s => some s | _ => none) = [] := rfl
  rw [h1, h2, List.append_nil]

theorem getLast?_append_pair (l : List Msg) (u a : Msg) :
    (l ++ [u, a]).getLast? = some a := by
  have : l ++ [u, a] = (l ++ [u]) ++ [a] := by simp
  rw [this, List.getLast?_concat]

/-- Claim C1: for a streaming turn that terminates with the done event, the
assistant message appended to the in-memory session and written to the durable
store is exactly the in-order concatenation of the chunk strings delivered to
the client transport during the turn. Modelled on the Claude streaming adapter
(claudeService.js lines 266-310) feeding saveCompletedChat (server.js lines
889-921); the fresh transport captures the events of this turn. -/
theorem c1_persisted_assistant_equals_streamed_chunks
    (datas : List ClaudeStreamData) (hist : List Msg) (existing : Option ChatRow)
    (userContent : String) :
    chunkConcat (generateClaudeStreamingRun Transport.fresh datas).1.events
        = (generateClaudeStreamingRun Transport.fresh datas).2
    ∧ (generateClaudeStreamingRun Transport.fresh datas).1.events.getLast?
        = some SSEEvent.done
    ∧ (saveCompletedChatMemory hist userContent
          (generateClaudeStreamingRun Transport.fresh datas).2).getLast?
        = some (Msg.mk ("assistant") (generateClaudeStreamingRun Transport.fresh datas).2)
    ∧ (saveTurn existing userContent
          (generateClaudeStreamingRun Transport.fresh datas).2).messages.getLast?
        = some (Msg.mk ("assistant") (generateClaudeStreamingRun Transport.fresh datas).2) := by
  rw [generateClaudeStreamingRun_fresh]
  refine ⟨?_, ?_, ?_, ?_⟩
  · show chunkConcat (claudeStreamEvents datas ++ [SSEEvent.done]) = claudeCompleteResponse datas
    unfold claudeStreamEvents claudeCompleteResponse
    exact chunkConcat_chunks_done (datas.filterMap claudeExtract)
  · show (claudeStreamEvents datas ++ [SSEEvent.done]).getLast? = some SSEEvent.done
    exact List.getLast?_concat _
  · unfold saveCompletedChatMemory
    exact List.getLast?_concat _
  · cases existing with
    | none => rfl
    | some c =>
        show (c.messages ++ [Msg.mk ("user") userContent,
          Msg.mk ("assistant") (claudeCompleteResponse datas)]).getLast? = _
        exact getLast?_append_pair _ _ _

/-- Claim C7: the Gemini streaming entry point performs the blocking generate
call and then delivers exactly that text as a single chunk event followed
immediately by the done event, returning the same text for persistence — the
simulated stream is indistinguishable from a real one except by latency.
Modelled on handleGeminiStreamingRequest (geminiService.js lines 191-212)
against generateGeminiResponse (lines 77-181). -/
theorem c7_gemini_streaming_refines_one_shot (d : GeminiData) :
    generateGeminiResponse (GeminiFate.ok d) = Except.ok (geminiExtractReply d)
    ∧ handleGeminiStreamingRequest Transport.fresh (GeminiFate.ok d)
        = (Transport.mk [SSEEvent.chunk (geminiExtractReply d), SSEEvent.done] true,
            some (geminiExtractReply d)) := by
  exact ⟨rfl, rfl⟩

/-- Fold of saveTurn over a list of turns, starting from a durable state. -/
def applyTurns (turns : List (String × String)) (start : Option ChatRow) : Option ChatRow :=
  turns.foldl (fun r p => some (saveTurn r p.1 p.2)) start

theorem applyTurns_invariant (turns : List (String × String)) :
    ∀ start : Option ChatRow,
      (start = none ∨ ∃ c, start = some c ∧ 2 * c.message_count = c.messages.length) →
      ∀ row, applyTurns turns start = some row → 2 * row.message_count = row.messages.length := by
  induction turns with
  | nil =>
      intro start hstart row hrow
      simp only [applyTurns, List.foldl_nil] at hrow
      rcases hstart with h | ⟨c, hc, hinv⟩
      · rw [h] at hrow; exact absurd hrow (by simp)
      · rw [hc] at hrow
        cases hrow
        exact hinv
  | cons p rest ih =>
      intro start hstart row hrow
      simp only [applyTurns, List.foldl_cons] at hrow
      refine ih (some (saveTurn start p.1 p.2)) ?_ row hrow
      right
      refine ⟨saveTurn start p.1 p.2, rfl, ?_⟩
      rcases hstart with h | ⟨c, hc, hinv⟩
      · rw [h]; rfl
      · rw [hc]
        simp only [saveTurn, List.length_append, List.length_cons, List.length_nil]
        omega

/-- Claim C10: every persisted turn appends exactly two entries (the user
message then the assistant message) to the durable messages array while
increasing message_count by exactly one, a fresh insert storing two messages
with message_count 1; consequently every durable row produced by the code has
message_count equal to half its stored message count — it counts turns, not
messages. Modelled on saveTurn (server.js lines 523-543 and 897-917). -/
theorem c10_message_count_counts_turns :
    (∀ u a : String, (saveTurn none u a).messages = [Msg.mk ("user") u, Msg.mk ("assistant") a]
        ∧ (saveTurn none u a).message_count = 1)
    ∧ (∀ (c : ChatRow) (u a : String),
        (saveTurn (some c) u a).messages = c.messages ++ [Msg.mk ("user") u, Msg.mk ("assistant") a]
        ∧ (saveTurn (some c) u a).message_count = c.message_count + 1)
    ∧ (∀ (turns : List (String × String)) (row : ChatRow),
        applyTurns turns none = some row → 2 * row.message_count = row.messages.length) := by
  refine ⟨fun u a => ⟨rfl, rfl⟩, fun c u a => ⟨rfl, rfl⟩, ?_⟩
  intro turns row hrow
  exact applyTurns_invariant turns none (Or.inl rfl) row hrow

/-- Witness for C10: one concrete turn from a fresh session yields a row with
two messages and message_count 1. -/
theorem c10_message_count_counts_turns_witness :
    applyTurns [(("hi"), ("there"))] none = some (saveTurn none ("hi") ("there"))
    ∧ 2 * (saveTurn none ("hi") ("there")).message_count
        = (saveTurn none ("hi") ("there")).messages.length :=
  ⟨rfl, c10_message_count_counts_turns.2.2 [(("hi"), ("there"))] _ rfl⟩

/-! ## C6: image size ceilings -/

/-- An oversized (11 MiB) uploaded image file. -/
def c6bigFile : FileMeta :=
  FileMeta.mk ("big.png") ("image/png") (11 * 1024 * 1024) true true ("QUJD") ("")

/-- Counterexample to C6 as stated: the Gemini provider path that the server
actually uses (generateGeminiResponse calling processImagesForGemini,
geminiService.js lines 40-67 and 127-136) reads the bytes of an 11 MiB image
and includes it in the request — no 10 MiB ceiling is enforced there and the
file is not dropped. -/
theorem c6_gemini_path_reads_oversized_file :
    c6bigFile.size > 10 * 1024 * 1024
    ∧ processImagesForGemini [c6bigFile]
        = [(true, some (ImagePart.geminiImg ("image/png") ("QUJD")))] :=
  ⟨by decide, rfl⟩

/-- Claim C6 (amended): in prepareImagesForModel a per-branch size ceiling is
enforced on the stat before any bytes are read — 10 MiB in the Claude and
Gemini branches, 20 MiB in the Grok and OpenAI-compatible branches — and an
oversized file is dropped (its entry becomes null) while every other image file
still gets its own entry, so processing continues rather than aborting.
However, the Gemini request path used by the server reads every image with no
ceiling (see the counterexample), so the ceiling-before-read guarantee holds
only for the prepareImagesForModel branches. -/
theorem c6_prepare_images_enforces_ceilings :
    (∀ (files : List FileMeta) (target : String), jsIncludes target ("claude") = true →
        prepareImagesForModel files target = (imageFilter files).map prepClaude)
    ∧ (∀ (files : List FileMeta) (target : String), jsIncludes target ("claude") = false →
        jsIncludes target ("gemini") = true →
        prepareImagesForModel files target = (imageFilter files).map prepGeminiBranch)
    ∧ (∀ (files : List FileMeta) (target : String), jsIncludes target ("claude") = false →
        jsIncludes target ("gemini") = false → jsIncludes target ("grok") = true →
        prepareImagesForModel files target = (imageFilter files).map prepGrok)
    ∧ (∀ (files : List FileMeta) (target : String), jsIncludes target ("claude") = false →
        jsIncludes target ("gemini") = false → jsIncludes target ("grok") = false →
        prepareImagesForModel files target = (imageFilter files).map prepOAI)
    ∧ (∀ f : FileMeta, f.size > 10 * 1024 * 1024 →
        prepClaude f = (false, none) ∧ prepGeminiBranch f = (false, none))
    ∧ (∀ f : FileMeta, f.size > 20 * 1024 * 1024 →
        prepGrok f = (false, none) ∧ prepOAI f = (false, none))
    ∧ (∀ (files : List FileMeta) (target : String),
        (prepareImagesForModel files target).length = (imageFilter files).length) := by
  refine ⟨?_, ?_, ?_, ?_, ?_, ?_, ?_⟩
  · intro files target hc
    unfold prepareImagesForModel
    rcases eq_or_ne (imageFilter files) [] with h | h
    · simp [h]
    · simp [h, hc]
  · intro files target hc hg
    unfold prepareImagesForModel
    rcases eq_or_ne (imageFilter files) [] with h | h
    · simp [h]
    · simp [h, hc, hg]
  · intro files target hc hg hk
    unfold prepareImagesForModel
    rcases eq_or_ne (imageFilter files) [] with h | h
    · simp [h]
    · simp [h, hc, hg, hk]
  · intro files target hc hg hk
    unfold prepareImagesForModel
    rcases eq_or_ne (imageFilter files) [] with h | h
    · simp [h]
    · simp [h, hc, hg, hk]
  · intro f hf
    exact ⟨by simp [prepClaude, hf], by simp [prepGeminiBranch, hf]⟩
  · intro f hf
    exact ⟨by simp [prepGrok, hf], by simp [prepOAI, hf]⟩
  · intro files target
    unfold prepareImagesForModel
    rcases eq_or_ne (imageFilter files) [] with h | h
    · simp [h]
    · rcases hc : jsIncludes target ("claude") <;>
        rcases hg : jsIncludes target ("gemini") <;>
          rcases hk : jsIncludes target ("grok") <;> simp [h, hc, hg, hk]

/-- Witness for C6 (amended): the 11 MiB file is dropped without a read by both
10 MiB branches of prepareImagesForModel. -/
theorem c6_prepare_images_enforces_ceilings_witness :
    prepClaude c6bigFile = (false, none) ∧ prepGeminiBranch c6bigFile = (false, none) :=
  c6_prepare_images_enforces_ceilings.2.2.2.2.1 c6bigFile (by decide)

/-! ## C8: configuration checks precede any network call -/

/-- Claim C8: every provider adapter exposes a pure configuration predicate
that is true exactly when the credential is present and syntactically well-formed
(OpenAI: sk- prefix; Claude: sk-ant- prefix; Grok: xai- prefix; Gemini:
non-placeholder), and both the one-shot and the streaming entry points of an
unconfigured adapter fail with the configuration error while attempting no
network call. -/
theorem c8_unconfigured_adapter_no_network :
    (∀ key : Option String, isOpenAIConfigured key = true ↔
        ∃ k, key = some k ∧ k ≠ "" ∧ jsStartsWith k ("sk-") = true)
    ∧ (∀ key : String, isClaudeConfigured key = true ↔
        (key ≠ "" ∧ jsStartsWith key ("sk-ant-") = true))
    ∧ (∀ key : String, isGrokConfigured key = true ↔
        (key ≠ "" ∧ jsStartsWith key ("xai-") = true))
    ∧ (∀ key : String, isGeminiConfigured key = true ↔
        (key ≠ "" ∧ key ≠ "<YOUR_GEMINI_API_KEY>"))
    ∧ (∀ (key : Option String) (fate : NetFate) (sfate : StreamNetFate),
        isOpenAIConfigured key = false →
        generateOpenAIResponseM key fate = GenCallResult.mk false (Except.error openaiConfErr)
        ∧ generateOpenAIStreamingM key Transport.fresh sfate
            = StreamCallResult.mk false (sseFailT openaiConfErr))
    ∧ (∀ (key : String) (fate : NetFate) (sfate : StreamNetFate),
        isClaudeConfigured key = false →
        generateClaudeResponseM key fate = GenCallResult.mk false (Except.error claudeConfErr)
        ∧ generateClaudeStreamingM key Transport.fresh sfate
            = StreamCallResult.mk false (sseFailT claudeConfErr))
    ∧ (∀ (key : String) (fate : NetFate) (sfate : StreamNetFate),
        isGrokConfigured key = false →
        generateGrokResponseM key fate = GenCallResult.mk false (Except.error grokConfErr)
        ∧ generateGrokStreamingM key Transport.fresh sfate
            = StreamCallResult.mk false (sseFailT grokConfErr))
    ∧ (∀ (key : String) (fate : NetFate) (sfate : StreamNetFate),
        isGeminiConfigured key = false →
        generateGeminiResponseM key fate = GenCallResult.mk false (Except.error geminiConfErr)
        ∧ generateGeminiStreamingM key Transport.fresh sfate
            = StreamCallResult.mk false (sseFailT ("Gemini API error: " ++ geminiConfErr))) := by
  refine ⟨?_, ?_, ?_, ?_, ?_, ?_, ?_, ?_⟩
  · intro key
    cases key with
    | none => simp [isOpenAIConfigured]
    | some k => simp [isOpenAIConfigured]
  · intro key; simp [isClaudeConfigured]
  · intro key; simp [isGrokConfigured]
  · intro key; simp [isGeminiConfigured]
  · intro key fate sfate h
    exact ⟨by simp [generateOpenAIResponseM, h], by simp [generateOpenAIStreamingM, h, sseFailT]⟩
  · intro key fate sfate h
    exact ⟨by simp [generateClaudeResponseM, h], by simp [generateClaudeStreamingM, h, sseFailT]⟩
  · intro key fate sfate h
    exact ⟨by simp [generateGrokResponseM, h], by simp [generateGrokStreamingM, h, sseFailT]⟩
  · intro key fate sfate h
    exact ⟨by simp [generateGeminiResponseM, h], by simp [generateGeminiStreamingM, h, sseFailT]⟩

/-- Witness for C8: concrete unconfigured credentials fail without a network
call on each adapter. -/
theorem c8_unconfigured_adapter_no_network_witness :
    generateOpenAIResponseM none (NetFate.ok ("hi"))
        = GenCallResult.mk false (Except.error openaiConfErr)
    ∧ generateClaudeStreamingM ("") Transport.fresh (StreamNetFate.okStream [("x")])
        = StreamCallResult.mk false (sseFailT claudeConfErr)
    ∧ generateGrokResponseM ("sk-not-xai") (NetFate.ok ("hi"))
        = GenCallResult.mk false (Except.error grokConfErr)
    ∧ generateGeminiResponseM ("<YOUR_GEMINI_API_KEY>") (NetFate.ok ("hi"))
        = GenCallResult.mk false (Except.error geminiConfErr) :=
  ⟨(c8_unconfigured_adapter_no_network.2.2.2.2.1 none (NetFate.ok ("hi"))
      (StreamNetFate.okStream []) (by decide)).1,
   (c8_unconfigured_adapter_no_network.2.2.2.2.2.1 ("") (NetFate.ok ("hi"))
      (StreamNetFate.okStream [("x")]) (by decide)).2,
   (c8_unconfigured_adapter_no_network.2.2.2.2.2.2.1 ("sk-not-xai") (NetFate.ok ("hi"))
      (StreamNetFate.okStream []) (by decide)).1,
   (c8_unconfigured_adapter_no_network.2.2.2.2.2.2.2 ("<YOUR_GEMINI_API_KEY>")
      (NetFate.ok ("hi")) (StreamNetFate.okStream []) (by decide)).1⟩

/-! ## C9: the multipart limit caps every later ceiling -/

/-- Claim C9: a multipart request containing any file larger than the 10 MB
multer limit (10 * 1024 * 1024 bytes) is rejected with HTTP 413 by the
enhancedUpload middleware before the route handler — and hence before
authentication or attachment processing — ever runs; conversely every file the
middleware hands to the handler is at most that limit, so the 20 MiB tests of
the Grok and OpenAI-compatible image branches can never fire. -/
theorem c9_multer_limit_binds_first (incoming : List FileMeta)
    (req : ChatRequest) (env : ServerEnv) :
    ((∃ f ∈ incoming, f.size > multerFileSizeLimit) →
        chatPipeline incoming req env = PipelineResult.reject413)
    ∧ (∀ fs : List FileMeta, enhancedUpload incoming = UploadOutcome.accepted fs →
        ∀ f ∈ fs, f.size ≤ multerFileSizeLimit
          ∧ decide (f.size > 20 * 1024 * 1024) = false) := by
  constructor
  · rintro ⟨f, hf, hsize⟩
    have hany : incoming.any (fun f => f.size > multerFileSizeLimit) = true := by
      rw [List.any_eq_true]
      refine ⟨f, hf, ?_⟩
      rwa [decide_eq_true_eq]
    unfold chatPipeline enhancedUpload
    rw [if_pos hany]
  · intro fs hacc f hmem
    unfold enhancedUpload at hacc
    cases hany : incoming.any (fun f => f.size > multerFileSizeLimit) with
    | true =>
        rw [hany] at hacc
        simp at hacc
    | false =>
        rw [hany] at hacc
        simp only [Bool.false_eq_true, if_false] at hacc
        have hfs : fs = incoming.filter multerFileFilterAccepts := by
          injection hacc with h; exact h.symm
        have hinc : f ∈ incoming := by
          rw [hfs] at hmem
          exact (List.mem_filter.mp hmem).1
        have hpf := (List.any_eq_false.mp hany) f hinc
        simp only [decide_eq_true_eq] at hpf
        have hle : f.size ≤ multerFileSizeLimit := Nat.le_of_not_lt hpf
        refine ⟨hle, ?_⟩
        rw [decide_eq_false_iff_not]
        have hlim : multerFileSizeLimit = 10 * 1024 * 1024 := rfl
        omega

/-- A 12 MiB upload used to witness C9. -/
def c9bigFile : FileMeta :=
  FileMeta.mk ("huge.pdf") ("application/pdf") (12 * 1024 * 1024) true true ("") ("")

/-- A benign request and environment used by concrete evaluations. -/
def plainReq : ChatRequest :=
  ChatRequest.mk (some ("s1")) (some ("hello")) [] (some ("gpt-3.5-turbo"))

/-- A benign environment: authenticated subscribed user, fresh session,
successful provider. -/
def plainEnv : ServerEnv :=
  ServerEnv.mk (AuthOutcome.okUser ("u1")) true none 0 none (GenFate.genOk ("ok"))
    (StreamFate.streamOk [("he"), ("llo")]) (GeminiFate.ok (GeminiData.mk []))

/-- Witness for C9: the 12 MiB upload is rejected with 413 before the handler
runs. -/
theorem c9_multer_limit_binds_first_witness :
    chatPipeline [c9bigFile] plainReq plainEnv = PipelineResult.reject413 :=
  (c9_multer_limit_binds_first [c9bigFile] plainReq plainEnv).1
    ⟨c9bigFile, by simp, by decide⟩

/-! ## C2: exactly one terminal event per stream -/

theorem streamDispatchCommon_oneTerminal (fate : StreamFate) (confMsg : String)
    (existing : Option ChatRow) (u : String) (oc : Bool) :
    OneTerminal (streamDispatchCommon fate confMsg existing u oc).1.events := by
  cases fate with
  | notConfigured => exact oneTerminal_single_error confMsg
  | httpError =>
      cases oc with
      | false => exact oneTerminal_single_error _
      | true => exact oneTerminal_single_error _
  | streamOk deltas =>
      show OneTerminal
        ((((Transport.fresh.writeAll (deltas.map SSEEvent.chunk)).write
          SSEEvent.done).endT).events)
      rw [writeAll_open (deltas.map SSEEvent.chunk) Transport.fresh rfl]
      simpa [Transport.write, Transport.endT] using oneTerminal_chunks_done deltas

theorem handleGemini_oneTerminal (fate : GeminiFate) :
    OneTerminal (handleGeminiStreamingRequest Transport.fresh fate).1.events := by
  cases fate with
  | notConfigured => exact oneTerminal_single_error _
  | httpError s b => exact oneTerminal_single_error _
  | ok d =>
      exact ⟨[SSEEvent.chunk (geminiExtractReply d)], SSEEvent.done, rfl, rfl, rfl⟩

theorem dispatchStream_oneTerminal (m : String) (env : ServerEnv)
    (existing : Option ChatRow) (u : String) :
    OneTerminal (dispatchStream m env existing u).1.events := by
  unfold dispatchStream
  split
  · have h := handleGemini_oneTerminal env.gfate
    rcases hp : handleGeminiStreamingRequest Transport.fresh env.gfate with ⟨t1, r⟩
    rw [hp] at h
    cases r with
    | none => exact h
    | some s => exact h
  · split
    · exact streamDispatchCommon_oneTerminal _ _ _ _ _
    · split
      · exact streamDispatchCommon_oneTerminal _ _ _ _ _
      · exact streamDispatchCommon_oneTerminal _ _ _ _ _

/-- Claim C2: every stream opened by the streaming endpoint delivers exactly
one terminal event — a single done or a single error, never both and never
more than one — and it is the last delivered event. Requests rejected before
SSE begins (field validation, missing or malformed Authorization header) answer
with a plain HTTP status and open no stream. The second error write of the
outer catch on the default OpenAI path lands on an already-ended response and
is never delivered, matching the Node write-after-end behaviour. -/
theorem c2_stream_exactly_one_terminal (req : ChatRequest) (env : ServerEnv)
    (evs : List SSEEvent) (h : sseEventsOf (streamHandler req env) = some evs) :
    OneTerminal evs := by
  have hdisp : ∀ (m u : String) (tr : List Step),
      sseEventsOf (finishDispatch m env u tr) = some evs → OneTerminal evs := by
    intro m u tr hh
    simp only [finishDispatch, sseEventsOf] at hh
    have hone := dispatchStream_oneTerminal m env env.existingChat u
    rwa [Option.some.inj hh] at hone
  have hfailT : ∀ (m : String) (tr : List Step) (sv : Option ChatRow),
      sseEventsOf (StreamResult.mk (StreamOutcome.sse (sseFailT m)) tr sv) = some evs →
      OneTerminal evs := by
    intro m tr sv hh
    simp only [sseEventsOf, sseFailT_events] at hh
    rw [← Option.some.inj hh]
    exact oneTerminal_single_error m
  simp only [streamHandler] at h
  split at h
  · simp [sseEventsOf] at h
  · split at h
    · simp [sseEventsOf] at h
    · split at h
      · simp [sseEventsOf] at h
      · simp [sseEventsOf] at h
      · exact hfailT _ _ _ h
      · exact hfailT _ _ _ h
      · split at h
        · exact hfailT _ _ _ h
        · split at h
          · exact hfailT _ _ _ h
          · split at h
            · exact hfailT _ _ _ h
            · split at h
              · split at h
                · exact hfailT _ _ _ h
                · exact hdisp _ _ _ h
              · exact hdisp _ _ _ h

/-- Witness for C2: a successful two-chunk OpenAI stream delivers its chunks
followed by exactly one terminal done event. -/
theorem c2_stream_exactly_one_terminal_witness :
    sseEventsOf (streamHandler plainReq plainEnv)
      = some [SSEEvent.chunk ("he"), SSEEvent.chunk ("llo"), SSEEvent.done]
    ∧ OneTerminal [SSEEvent.chunk ("he"), SSEEvent.chunk ("llo"), SSEEvent.done] :=
  ⟨by decide, c2_stream_exactly_one_terminal plainReq plainEnv _ (by decide)⟩

/-! ## C3: premium classification and gating -/

/-- Claim C3: a model id is classified premium iff its lowercased form contains
one of the fixed markers gpt-4, claude, grok, deepseek (server.js lines 394-396
and 683-685); and whenever a premium-classified model is requested by an
unsubscribed user the request is rejected with a 403-style error — HTTP 403 on
the one-shot endpoint, a single SSE error event on the streaming endpoint —
regardless of quota state, and no provider call is made. -/
theorem c3_premium_model_gate :
    (∀ m : String, isPremiumModel m = true ↔
        ∃ pm ∈ premiumModels, jsIncludes (jsToLower m) pm = true)
    ∧ (∀ (files : List FileMeta) (exch : Option ChatRow) (total : Nat)
        (stored : Option String) (gen : GenFate) (sfate : StreamFate) (gfate : GeminiFate)
        (sid msg m uid : String),
        sid ≠ "" → jsTrim msg ≠ "" → m ≠ "" → isPremiumModel m = true →
        ((chatHandler (ChatRequest.mk (some sid) (some msg) files (some m))
              (ServerEnv.mk (AuthOutcome.okUser uid) false exch total stored gen sfate gfate)).status
            = 403
          ∧ Step.providerCall ∉
            (chatHandler (ChatRequest.mk (some sid) (some msg) files (some m))
              (ServerEnv.mk (AuthOutcome.okUser uid) false exch total stored gen sfate gfate)).trace)
        ∧ ((∃ emsg, sseEventsOf
              (streamHandler (ChatRequest.mk (some sid) (some msg) files (some m))
                (ServerEnv.mk (AuthOutcome.okUser uid) false exch total stored gen sfate gfate))
              = some [SSEEvent.error emsg])
          ∧ Step.providerCall ∉
            (streamHandler (ChatRequest.mk (some sid) (some msg) files (some m))
              (ServerEnv.mk (AuthOutcome.okUser uid) false exch total stored gen sfate gfate)).trace)) := by
  constructor
  · intro m
    simp [isPremiumModel, List.any_eq_true]
  · intro files exch total stored gen sfate gfate sid msg m uid hsid htrim hm hprem
    have hmsgne : msg ≠ "" := fun hz => htrim (by rw [hz]; rfl)
    have hsel : selectModel (some m) stored = m := by simp [selectModel, hm]
    constructor
    · simp only [chatHandler, jsTruthy, hsel, hprem]
      rw [if_neg (by simp [hsid, hmsgne])]
      split
      · exact ⟨rfl, by decide⟩
      · split
        · exact ⟨rfl, by decide⟩
        · rw [if_pos (by simp)]
          refine ⟨rfl, ?_⟩
          split <;> split <;> decide
    · simp only [streamHandler, jsTruthy, hsel, hprem]
      rw [if_neg (by simp [hsid])]
      rw [if_neg (by simp [htrim])]
      split
      · exact ⟨⟨_, rfl⟩, by decide⟩
      · split
        · exact ⟨⟨_, rfl⟩, by decide⟩
        · rw [if_pos (by simp)]
          refine ⟨⟨_, rfl⟩, ?_⟩
          split <;> decide

/-- Witness for C3: a concrete unsubscribed request for claude-3-opus is
rejected with 403. -/
theorem c3_premium_model_gate_witness :
    (chatHandler (ChatRequest.mk (some ("s1")) (some ("hello")) [] (some ("claude-3-opus")))
        (ServerEnv.mk (AuthOutcome.okUser ("u1")) false none 0 none (GenFate.genOk ("ok"))
          (StreamFate.streamOk [("ok")]) (GeminiFate.ok (GeminiData.mk [])))).status = 403 :=
  ((c3_premium_model_gate.2 [] none 0 none (GenFate.genOk ("ok")) (StreamFate.streamOk [("ok")])
      (GeminiFate.ok (GeminiData.mk [])) ("s1") ("hello") ("claude-3-opus") ("u1")
      (by decide) (by decide) (by decide) (by decide)).1).1

/-! ## C4: the per-chat quota counts turns, not stored messages -/

/-- The durable row produced by ten completed turns on a fresh session: twenty
stored messages, message_count 10. -/
def c4row : ChatRow := (iterSave 10 none).getD (ChatRow.mk [] 0)

/-- A request used by the C4 evaluations. -/
def c4req : ChatRequest :=
  ChatRequest.mk (some ("s1")) (some ("hello")) [] (some ("gpt-3.5-turbo"))

/-- Environment for C4: unsubscribed user whose session row is c4row. -/
def c4env : ServerEnv :=
  ServerEnv.mk (AuthOutcome.okUser ("u1")) false (some c4row) 1 none (GenFate.genOk ("ok"))
    (StreamFate.streamOk [("ok")]) (GeminiFate.ok (GeminiData.mk []))

/-- Counterexample to C4 as stated: an unsubscribed user whose existing durable
record already holds 20 stored messages is NOT rejected — the quota compares
the message_count column, which counts turns (it is 10 for a code-produced row
with 20 messages), against 20 — and the next turn reaches the provider on both
endpoints. -/
theorem c4_twenty_messages_not_rejected :
    iterSave 10 none = some c4row
    ∧ c4row.messages.length = 20
    ∧ 2 * c4row.message_count = c4row.messages.length
    ∧ (chatHandler c4req c4env).status = 200
    ∧ Step.providerCall ∈ (chatHandler c4req c4env).trace
    ∧ sseEventsOf (streamHandler c4req c4env) = some [SSEEvent.chunk ("ok"), SSEEvent.done]
    ∧ Step.providerCall ∈ (streamHandler c4req c4env).trace := by
  refine ⟨rfl, by decide, by decide, by decide, by decide, by decide, by decide⟩

/-- Claim C4 (amended): for an unsubscribed user whose session has an existing
durable record with message_count at least 20 — that is, at least 20 completed
turns, which for rows produced by this code means 40 stored messages — the next
chat turn is rejected with the per-chat-quota reason on both endpoints before
any provider call. -/
theorem c4_quota_rejects_at_twenty_turns
    (files : List FileMeta) (c : ChatRow) (total : Nat) (stored : Option String)
    (gen : GenFate) (sfate : StreamFate) (gfate : GeminiFate) (sid msg m uid : String)
    (hsid : sid ≠ "") (htrim : jsTrim msg ≠ "") (hc : 20 ≤ c.message_count) :
    ((chatHandler (ChatRequest.mk (some sid) (some msg) files (some m))
          (ServerEnv.mk (AuthOutcome.okUser uid) false (some c) total stored gen sfate gfate)).status
        = 403
      ∧ (chatHandler (ChatRequest.mk (some sid) (some msg) files (some m))
          (ServerEnv.mk (AuthOutcome.okUser uid) false (some c) total stored gen sfate gfate)).tag
        = ("quota_messages")
      ∧ Step.providerCall ∉
        (chatHandler (ChatRequest.mk (some sid) (some msg) files (some m))
          (ServerEnv.mk (AuthOutcome.okUser uid) false (some c) total stored gen sfate gfate)).trace)
    ∧ (sseEventsOf
          (streamHandler (ChatRequest.mk (some sid) (some msg) files (some m))
            (ServerEnv.mk (AuthOutcome.okUser uid) false (some c) total stored gen sfate gfate))
        = some [SSEEvent.error ("Free tier limit: Maximum 20 messages per chat reached.")]
      ∧ Step.providerCall ∉
        (streamHandler (ChatRequest.mk (some sid) (some msg) files (some m))
          (ServerEnv.mk (AuthOutcome.okUser uid) false (some c) total stored gen sfate gfate)).trace) := by
  have hmsgne : msg ≠ "" := fun hz => htrim (by rw [hz]; rfl)
  have hnew : quotaNewChatReject false (some c) total = false := by
    simp [quotaNewChatReject]
  have hmsgq : quotaMsgsReject false (some c) = true := by
    simp [quotaMsgsReject, hc]
  constructor
  · simp only [chatHandler, jsTruthy]
    rw [if_neg (by simp [hsid, hmsgne])]
    rw [if_neg (by simp [hnew])]
    rw [if_pos (by simp [hmsgq])]
    exact ⟨rfl, rfl, by decide⟩
  · simp only [streamHandler, jsTruthy]
    rw [if_neg (by simp [hsid])]
    rw [if_neg (by simp [htrim])]
    rw [if_neg (by simp [hnew])]
    rw [if_pos (by simp [hmsgq])]
    exact ⟨rfl, by decide⟩

/-- A code-produced durable row with message_count 20 (twenty turns, forty
stored messages). -/
def c4row20 : ChatRow := (iterSave 20 none).getD (ChatRow.mk [] 0)

/-- Witness for C4 (amended): with a 20-turn row on file the next turn is
rejected with the per-chat-quota reason. -/
theorem c4_quota_rejects_at_twenty_turns_witness :
    (chatHandler (ChatRequest.mk (some ("s1")) (some ("hello")) [] (some ("gpt-3.5-turbo")))
        (ServerEnv.mk (AuthOutcome.okUser ("u1")) false (some c4row20) 1 none
          (GenFate.genOk ("ok")) (StreamFate.streamOk [("ok")])
          (GeminiFate.ok (GeminiData.mk [])))).tag = ("quota_messages") :=
  ((c4_quota_rejects_at_twenty_turns [] c4row20 1 none (GenFate.genOk ("ok"))
      (StreamFate.streamOk [("ok")]) (GeminiFate.ok (GeminiData.mk []))
      ("s1") ("hello") ("gpt-3.5-turbo") ("u1")
      (by decide) (by decide) (by decide)).1).2.1

/-! ## C5: ordering of access control, attachment processing and dispatch -/

theorem chatHandler_trace_order (req : ChatRequest) (env : ServerEnv) :
    precededBy Step.accessChecks Step.processFiles (chatHandler req env).trace = true
    ∧ precededBy Step.accessChecks Step.readTextFiles (chatHandler req env).trace = true
    ∧ precededBy Step.accessChecks Step.prepareImages (chatHandler req env).trace = true
    ∧ precededBy Step.accessChecks Step.providerCall (chatHandler req env).trace = true
    ∧ precededBy Step.premiumCheck Step.prepareImages (chatHandler req env).trace = true
    ∧ precededBy Step.premiumCheck Step.providerCall (chatHandler req env).trace = true := by
  simp only [chatHandler]
  repeat' split
  all_goals exact ⟨rfl, rfl, rfl, rfl, rfl, rfl⟩

theorem streamHandler_trace_order (req : ChatRequest) (env : ServerEnv) :
    precededBy Step.accessChecks Step.processFiles (streamHandler req env).trace = true
    ∧ precededBy Step.accessChecks Step.readTextFiles (streamHandler req env).trace = true
    ∧ precededBy Step.accessChecks Step.prepareImages (streamHandler req env).trace = true
    ∧ precededBy Step.accessChecks Step.providerCall (streamHandler req env).trace = true
    ∧ precededBy Step.premiumCheck Step.prepareImages (streamHandler req env).trace = true
    ∧ precededBy Step.premiumCheck Step.providerCall (streamHandler req env).trace = true := by
  simp only [streamHandler, finishDispatch]
  repeat' split
  all_goals exact ⟨rfl, rfl, rfl, rfl, rfl, rfl⟩

/-- A small text attachment used by the C5 evaluations. -/
def c5file : FileMeta :=
  FileMeta.mk ("notes.txt") ("text/plain") 100 true true ("") ("hello")

/-- A request with one text attachment for C5. -/
def c5req : ChatRequest :=
  ChatRequest.mk (some ("s1")) (some ("look")) [c5file] (some ("gpt-3.5-turbo"))

/-- A subscribed-user environment for C5. -/
def c5env : ServerEnv :=
  ServerEnv.mk (AuthOutcome.okUser ("u1")) true none 0 none (GenFate.genOk ("ok"))
    (StreamFate.streamOk [("ok")]) (GeminiFate.ok (GeminiData.mk []))

/-- Counterexample to C5 as stated: on both endpoints the uploaded files are
registered (processUploadedFiles) — and on the one-shot endpoint the attached
documents are also read — before the premium-model gate of the access-control
evaluation runs, so the full evaluation of the access rules does not complete
before attachment processing. -/
theorem c5_attachments_processed_before_premium_gate :
    Step.processFiles ∈ (chatHandler c5req c5env).trace
    ∧ Step.premiumCheck ∈ (chatHandler c5req c5env).trace
    ∧ precededBy Step.premiumCheck Step.processFiles (chatHandler c5req c5env).trace = false
    ∧ Step.readTextFiles ∈ (chatHandler c5req c5env).trace
    ∧ precededBy Step.premiumCheck Step.readTextFiles (chatHandler c5req c5env).trace = false
    ∧ Step.processFiles ∈ (streamHandler c5req c5env).trace
    ∧ precededBy Step.premiumCheck Step.processFiles (streamHandler c5req c5env).trace = false := by
  refine ⟨by decide, by decide, by decide, by decide, by decide, by decide, by decide⟩

/-- Claim C5 (amended): the subscription and quota part of the access-control
evaluation completes before any attachment processing (file registration,
document reading, image preparation) and before any provider call, and the
premium-model gate completes before image preparation and before any provider
call; but the premium-model gate runs after uploaded-file registration on both
endpoints — and after document reading on the one-shot endpoint — rather than
before all attachment processing (see the counterexample). -/
theorem c5_access_checks_precede_costly_steps (req : ChatRequest) (env : ServerEnv) :
    (precededBy Step.accessChecks Step.processFiles (chatHandler req env).trace = true
      ∧ precededBy Step.accessChecks Step.readTextFiles (chatHandler req env).trace = true
      ∧ precededBy Step.accessChecks Step.prepareImages (chatHandler req env).trace = true
      ∧ precededBy Step.accessChecks Step.providerCall (chatHandler req env).trace = true
      ∧ precededBy Step.premiumCheck Step.prepareImages (chatHandler req env).trace = true
      ∧ precededBy Step.premiumCheck Step.providerCall (chatHandler req env).trace = true)
    ∧ (precededBy Step.accessChecks Step.processFiles (streamHandler req env).trace = true
      ∧ precededBy Step.accessChecks Step.readTextFiles (streamHandler req env).trace = true
      ∧ precededBy Step.accessChecks Step.prepareImages (streamHandler req env).trace = true
      ∧ precededBy Step.accessChecks Step.providerCall (streamHandler req env).trace = true
      ∧ precededBy Step.premiumCheck Step.prepareImages (streamHandler req env).trace = true
      ∧ precededBy Step.premiumCheck Step.providerCall (streamHandler req env).trace = true) :=
  ⟨chatHandler_trace_order req env, streamHandler_trace_order req env⟩
